import Mathlib

/-!
Verification of the metrics-emission pipeline of `network-calls-stats`
(`example-0-requests-send-stats.py`, `example-1-aiohttp-send-stats-basic.py`,
`example-3-aiohttp-reuse-session.py`).

The three files share the same Telegraf helpers verbatim
(`prepare_str_for_telegraf`, `format_measurement_influxline`, `send_stats`,
`profiler`, `profile`); we embed them once, following
`example-3-aiohttp-reuse-session.py`.

Python values flowing through the pipeline (metric names, metric values, tag
keys and tag values) are either strings or integers; we model them with
`PyVal`.  Monotonic clock readings (`time.perf_counter()`,
`asyncio.get_event_loop().time()`) are modelled as exact rationals.
-/

namespace NetworkCallsStats

/-- A Python value appearing as a metric name, metric value, tag key or tag
value: a string or an integer. -/
inductive PyVal where
  | str (s : String)
  | int (n : Int)
deriving DecidableEq, Repr

/-- Python `str(v)` / f-string interpolation of a `PyVal`. -/
def PyVal.toStr : PyVal → String
  | .str s => s
  | .int n => toString n

/-- Python `s.replace(old, new)` for a one-character pattern and a
one-character replacement: replace every occurrence of `old` by `new`. -/
def replaceChar (old new : Char) (s : String) : String :=
  String.mk (s.data.map fun c => if c = old then new else c)

/-- Embedding of `prepare_str_for_telegraf` (example-3, lines 18-25):
non-strings are returned unchanged; in a string, `:` then `_` then `|`
are each replaced with `-`. -/
def prepare_str_for_telegraf : PyVal → PyVal
  | .str s => .str (replaceChar '|' '-' (replaceChar '_' '-' (replaceChar ':' '-' s)))
  | v => v

/-- Python `sep.join(parts)`. -/
def pyJoin (sep : String) : List String → String
  | [] => ""
  | [s] => s
  | s :: rest => s ++ sep ++ pyJoin sep rest

/-- Inserting a binding into a Python dict (association list in insertion
order): an existing key is overwritten in place, a new key is appended. -/
def dictInsert (l : List (PyVal × PyVal)) (k v : PyVal) : List (PyVal × PyVal) :=
  if l.any (fun p => p.1 = k) then
    l.map (fun p => if p.1 = k then (k, v) else p)
  else l ++ [(k, v)]

/-- The Python dict built by a comprehension iterating over a list of
key-value pairs in order. -/
def pyDict (l : List (PyVal × PyVal)) : List (PyVal × PyVal) :=
  l.foldl (fun acc p => dictInsert acc p.1 p.2) []

/-- Embedding of `format_measurement_influxline` (example-3, lines 28-40).
`tags` is `none` for Python `None`, otherwise the dict's items in insertion
order; `if tags:` is false for both `None` and the empty dict. -/
def format_measurement_influxline (metric_name metric_value : PyVal)
    (tags : Option (List (PyVal × PyVal))) : String :=
  let tags_str : String :=
    match tags with
    | none => ""
    | some [] => ""
    | some l =>
      let escaped := pyDict (l.map fun p =>
        (prepare_str_for_telegraf p.1, prepare_str_for_telegraf p.2))
      "," ++ pyJoin "," (escaped.map fun p => p.1.toStr ++ "=" ++ p.2.toStr)
  (prepare_str_for_telegraf metric_name).toStr ++ tags_str
    ++ " value=" ++ (prepare_str_for_telegraf metric_value).toStr ++ "\n"

/-- Python `round(x)` on an exact value: round half to even (banker's
rounding), returning an integer. -/
def python_round (x : ℚ) : Int :=
  let f := ⌊x⌋
  let r := x - (f : ℚ)
  if r < 1/2 then f
  else if 1/2 < r then f + 1
  else if 2 ∣ f then f else f + 1

/-- A transport-level failure: Python `socket.error` with its message. -/
inductive SocketError where
  | err (msg : String)
deriving DecidableEq, Repr

/-- What one call to the metrics sink observably does: the metric (name,
value, tags) handed to `send_stats`. -/
structure Metric where
  name : PyVal
  value : PyVal
  tags : Option (List (PyVal × PyVal))
deriving DecidableEq, Repr

/-- Normal return of `send_stats`: either the success log line was printed
after the datagram was sent, or the caught transport error was logged. -/
inductive SendOutcome where
  | reported (line : String)
  | logged_error (e : SocketError)
deriving DecidableEq, Repr

/-- The `try` block of `send_stats` (example-3, lines 44-55): format the
line, create the socket and send the datagram (an effect whose outcome is the
parameter `sendResult`), print the success log, close the socket.  A
`socket.error` raised by socket creation or by `sendto` propagates out of the
block. -/
def send_stats_try_block (sendResult : Except SocketError Unit)
    (metric_name metric_value : PyVal) (tags : Option (List (PyVal × PyVal))) :
    Except SocketError SendOutcome := do
  let line := format_measurement_influxline metric_name metric_value tags
  let _ ← sendResult
  pure (.reported line)

/-- Python `try ... except socket.error as e: print(...)`: a normal result
passes through, a raised `socket.error` is handled. -/
def pyTryExceptSocketError (body : Except SocketError SendOutcome)
    (handler : SocketError → SendOutcome) : SendOutcome :=
  match body with
  | .ok a => a
  | .error e => handler e

/-- Embedding of `send_stats` (example-3, lines 43-57): run the `try` block;
on `socket.error`, log the error and return normally. -/
def send_stats (sendResult : Except SocketError Unit)
    (metric_name metric_value : PyVal)
    (tags : Option (List (PyVal × PyVal))) : SendOutcome :=
  pyTryExceptSocketError
    (send_stats_try_block sendResult metric_name metric_value tags)
    (fun e => .logged_error e)

/-- A Python exception relevant to the trace observers and wrappers. -/
inductive PyErr where
  | attributeError (attr : String)
  | clientError (msg : String)
deriving DecidableEq, Repr

/-- The phase-specific `params` bundle handed to a trace observer.  `host` is
`some h` when `hasattr(params, 'host')`; `url_raw_host` is `some u` when
`hasattr(params, 'url')`, carrying `params.url.raw_host`. -/
structure TraceParams where
  host : Option PyVal := none
  url_raw_host : Option PyVal := none
deriving DecidableEq, Repr

/-- The per-request `trace_config_ctx` namespace.  Each field is `some t`
once the corresponding `*_start` observer has assigned it, `none` on a fresh
context (where attribute access raises `AttributeError`). -/
structure TraceConfigCtx where
  request_start : Option ℚ := none
  connection_queued_start : Option ℚ := none
  connection_create_start : Option ℚ := none
  dns_resolvehost_start : Option ℚ := none
deriving DecidableEq, Repr

/-- Embedding of `compute_elapsed_and_send_stats` (example-3, lines 110-123):
`now` is the reading of `asyncio.get_event_loop().time()`.  Returns the
metric handed to `send_stats`. -/
def compute_elapsed_and_send_stats (now start_time : ℚ) (metric_name : PyVal)
    (params : TraceParams) : Metric :=
  let elapsed_time : Int := python_round ((now - start_time) * 1000)
  let tags : List (PyVal × PyVal) := []
  let tags := match params.host with
    | some h => dictInsert tags (.str "domain") h
    | none => tags
  let tags := match params.url_raw_host with
    | some u => dictInsert tags (.str "domain") u
    | none => tags
  ⟨metric_name, .int elapsed_time, some tags⟩

/-- Embedding of `on_request_start` (example-3, lines 126-127): record the
current loop time in the per-request context. -/
def on_request_start (now : ℚ) (ctx : TraceConfigCtx) : TraceConfigCtx :=
  { ctx with request_start := some now }

/-- Embedding of `on_request_end` (example-3, lines 130-135): read
`trace_config_ctx.request_start` (raising `AttributeError` if it was never
assigned) and emit the duration metric. -/
def on_request_end (now : ℚ) (ctx : TraceConfigCtx) (params : TraceParams) :
    Except PyErr Metric :=
  match ctx.request_start with
  | none => .error (.attributeError "request_start")
  | some s => .ok (compute_elapsed_and_send_stats now s
      (.str "aiohttp_request_exec_time") params)

/-- Embedding of `on_connection_queued_start` (example-3, lines 138-139). -/
def on_connection_queued_start (now : ℚ) (ctx : TraceConfigCtx) : TraceConfigCtx :=
  { ctx with connection_queued_start := some now }

/-- Embedding of `on_connection_queued_end` (example-3, lines 142-147). -/
def on_connection_queued_end (now : ℚ) (ctx : TraceConfigCtx)
    (params : TraceParams) : Except PyErr Metric :=
  match ctx.connection_queued_start with
  | none => .error (.attributeError "connection_queued_start")
  | some s => .ok (compute_elapsed_and_send_stats now s
      (.str "aiohttp_connection_queued_time") params)

/-- Embedding of `on_connection_create_start` (example-3, lines 150-151). -/
def on_connection_create_start (now : ℚ) (ctx : TraceConfigCtx) : TraceConfigCtx :=
  { ctx with connection_create_start := some now }

/-- Embedding of `on_connection_create_end` (example-3, lines 154-159). -/
def on_connection_create_end (now : ℚ) (ctx : TraceConfigCtx)
    (params : TraceParams) : Except PyErr Metric :=
  match ctx.connection_create_start with
  | none => .error (.attributeError "connection_create_start")
  | some s => .ok (compute_elapsed_and_send_stats now s
      (.str "aiohttp_connection_create_time") params)

/-- Embedding of `on_dns_resolvehost_start` (example-3, lines 162-163). -/
def on_dns_resolvehost_start (now : ℚ) (ctx : TraceConfigCtx) : TraceConfigCtx :=
  { ctx with dns_resolvehost_start := some now }

/-- Embedding of `on_dns_resolvehost_end` (example-3, lines 166-171). -/
def on_dns_resolvehost_end (now : ℚ) (ctx : TraceConfigCtx)
    (params : TraceParams) : Except PyErr Metric :=
  match ctx.dns_resolvehost_start with
  | none => .error (.attributeError "dns_resolvehost_start")
  | some s => .ok (compute_elapsed_and_send_stats now s
      (.str "aiohttp_dns_resolvehost_time") params)

/-- Embedding of one `with profiler(metric_name, **tags):` execution around a
body (example-3, lines 62-68 with 89-96): `startNow` and `endNow` are the two
`time.perf_counter()` readings.  The generator has no `try/finally` around
its `yield`, so when the body raises, the exception is thrown into the
generator at the `yield` point, nothing after the `yield` runs (no metric is
sent), and the exception propagates; on normal exit the code after the
`yield` computes `int(round((end - start) * 1000))` and calls `send_stats`.
Returns the body's outcome together with the list of metrics sent. -/
def profiler_run {α : Type} (startNow endNow : ℚ) (metric_name : PyVal)
    (tags : List (PyVal × PyVal)) (body : Except PyErr α) :
    Except PyErr α × List Metric :=
  match body with
  | .ok v =>
    let elapsed_time : Int := python_round ((endNow - startNow) * 1000)
    (.ok v, [⟨metric_name, .int elapsed_time, some tags⟩])
  | .error e => (.error e, [])

/-- Python truthiness of the `metric_name` closure variable of `profile`:
`None` and the empty string are falsy. -/
def py_falsy : Option String → Bool
  | none => true
  | some s => s = ""

/-- Embedding of the `nonlocal metric_name` update in `actual_decorator`
(example-3, lines 83-86): decorating a function named `fname` sets the shared
closure cell to `fname + '_exec_time'` when it is still falsy, and leaves it
unchanged otherwise.  Every function wrapped by the same `profile(...)` call
reads this single cell at call time. -/
def actual_decorator_name (metric_name : Option String) (fname : String) :
    Option String :=
  if py_falsy metric_name then some (fname ++ "_exec_time") else metric_name

/-! ### Supporting lemmas -/

theorem digitChar_lt_ten_isDigit : ∀ m, m < 10 → (Nat.digitChar m).isDigit = true := by
  decide

theorem toDigitsCore_isDigit :
    ∀ (fuel n : Nat) (ds : List Char), (∀ c ∈ ds, c.isDigit = true) →
      ∀ c ∈ Nat.toDigitsCore 10 fuel n ds, c.isDigit = true := by
  intro fuel
  induction fuel with
  | zero =>
    intro n ds hds c hc
    simp only [Nat.toDigitsCore] at hc
    exact hds c hc
  | succ fuel ih =>
    intro n ds hds c hc
    simp only [Nat.toDigitsCore] at hc
    have hdig : (Nat.digitChar (n % 10)).isDigit = true :=
      digitChar_lt_ten_isDigit _ (Nat.mod_lt _ (by decide))
    split at hc
    · rcases List.mem_cons.mp hc with hc | hc
      · exact hc ▸ hdig
      · exact hds c hc
    · refine ih (n / 10) (Nat.digitChar (n % 10) :: ds) ?_ c hc
      intro c' hc'
      rcases List.mem_cons.mp hc' with hc' | hc'
      · exact hc' ▸ hdig
      · exact hds c' hc'

theorem natRepr_isDigit (n : Nat) : ∀ c ∈ (Nat.repr n).data, c.isDigit = true := by
  intro c hc
  have hdata : (Nat.repr n).data = Nat.toDigitsCore 10 (n + 1) n [] := rfl
  rw [hdata] at hc
  exact toDigitsCore_isDigit (n + 1) n []
    (fun c' hc' => absurd hc' (List.not_mem_nil c')) c hc

/-- Each character of Python `str(n)` for an integer `n` is a decimal digit
or the minus sign. -/
theorem intToString_chars (n : Int) :
    ∀ c ∈ (toString n).data, c.isDigit = true ∨ c = '-' := by
  intro c hc
  cases n with
  | ofNat m =>
    have h : (toString (Int.ofNat m)).data = (Nat.repr m).data := rfl
    rw [h] at hc
    exact Or.inl (natRepr_isDigit m c hc)
  | negSucc m =>
    have h : (toString (Int.negSucc m)).data = '-' :: (Nat.repr (m + 1)).data := rfl
    rw [h] at hc
    rcases List.mem_cons.mp hc with hc | hc
    · exact Or.inr hc
    · exact Or.inl (natRepr_isDigit (m + 1) c hc)

theorem prepare_str_data (s : String) :
    (prepare_str_for_telegraf (.str s)).toStr.data
      = ((s.data.map (fun c => if c = ':' then '-' else c)).map
          (fun c => if c = '_' then '-' else c)).map
          (fun c => if c = '|' then '-' else c) := rfl

/-- The escaped form of a string contains none of the reserved characters. -/
theorem prepare_str_clean (s : String) :
    ∀ c ∈ (prepare_str_for_telegraf (.str s)).toStr.data,
      c ≠ ':' ∧ c ≠ '_' ∧ c ≠ '|' := by
  intro c hc
  rw [prepare_str_data, List.map_map, List.map_map, List.mem_map] at hc
  obtain ⟨a, -, rfl⟩ := hc
  by_cases h1 : a = ':'
  · subst h1; decide
  · by_cases h2 : a = '_'
    · subst h2; decide
    · by_cases h3 : a = '|'
      · subst h3; decide
      · simp only [Function.comp_apply, if_neg h1, if_neg h2, if_neg h3]
        exact ⟨h1, h2, h3⟩

/-- The escaped, stringified form of any `PyVal` contains none of the
reserved characters. -/
theorem prepare_toStr_clean (v : PyVal) :
    ∀ c ∈ ((prepare_str_for_telegraf v).toStr).data,
      c ≠ ':' ∧ c ≠ '_' ∧ c ≠ '|' := by
  cases v with
  | str s => exact prepare_str_clean s
  | int n =>
    intro c hc
    have hd : (prepare_str_for_telegraf (.int n)).toStr.data = (toString n).data := rfl
    rw [hd] at hc
    rcases intToString_chars n c hc with h | h
    · refine ⟨?_, ?_, ?_⟩ <;> rintro rfl <;> exact absurd h (by decide)
    · subst h; decide

theorem mem_pyJoin (sep : String) :
    ∀ (parts : List String) (c : Char), c ∈ (pyJoin sep parts).data →
      c ∈ sep.data ∨ ∃ p ∈ parts, c ∈ p.data := by
  intro parts
  induction parts with
  | nil =>
    intro c hc
    exact absurd hc (by simp [pyJoin])
  | cons s rest ih =>
    intro c hc
    cases rest with
    | nil => exact Or.inr ⟨s, by simp, hc⟩
    | cons r rs =>
      rw [show pyJoin sep (s :: r :: rs) = s ++ sep ++ pyJoin sep (r :: rs) from rfl,
        String.data_append, String.data_append] at hc
      rcases List.mem_append.mp hc with hc | hc
      · rcases List.mem_append.mp hc with hc | hc
        · exact Or.inr ⟨s, by simp, hc⟩
        · exact Or.inl hc
      · rcases ih c hc with h | ⟨p, hp, hcp⟩
        · exact Or.inl h
        · exact Or.inr ⟨p, by simp [hp], hcp⟩

theorem mem_dictInsert {l : List (PyVal × PyVal)} {k v : PyVal}
    {p : PyVal × PyVal} (h : p ∈ dictInsert l k v) : p ∈ l ∨ p = (k, v) := by
  unfold dictInsert at h
  split at h
  · obtain ⟨q, hq, hqe⟩ := List.mem_map.mp h
    by_cases hk : q.1 = k
    · rw [if_pos hk] at hqe
      exact Or.inr hqe.symm
    · rw [if_neg hk] at hqe
      exact Or.inl (hqe ▸ hq)
  · rcases List.mem_append.mp h with h | h
    · exact Or.inl h
    · exact Or.inr (by simpa using h)

/-- Every binding of the dict built by the comprehension came from the
iterated list of pairs. -/
theorem mem_pyDict {l : List (PyVal × PyVal)} {p : PyVal × PyVal}
    (h : p ∈ pyDict l) : p ∈ l := by
  suffices hgen : ∀ (l acc : List (PyVal × PyVal)),
      p ∈ l.foldl (fun acc q => dictInsert acc q.1 q.2) acc → p ∈ acc ∨ p ∈ l by
    rcases hgen l [] h with h' | h'
    · exact absurd h' (List.not_mem_nil p)
    · exact h'
  intro l
  induction l with
  | nil =>
    intro acc h
    exact Or.inl h
  | cons q rest ih =>
    intro acc h
    rcases ih (dictInsert acc q.1 q.2) h with h' | h'
    · rcases mem_dictInsert h' with h'' | h''
      · exact Or.inl h''
      · exact Or.inr (by simp [h''])
    · exact Or.inr (List.mem_cons_of_mem q h')

/-- Every character of one rendered `key=value` tag piece avoids the
reserved characters. -/
theorem tag_part_clean {l : List (PyVal × PyVal)} {part : String}
    (hpart : part ∈ (pyDict (l.map fun p =>
        (prepare_str_for_telegraf p.1, prepare_str_for_telegraf p.2))).map
        (fun p => p.1.toStr ++ "=" ++ p.2.toStr)) :
    ∀ c ∈ part.data, c ≠ ':' ∧ c ≠ '_' ∧ c ≠ '|' := by
  intro c hc
  obtain ⟨pr, hpr, rfl⟩ := List.mem_map.mp hpart
  obtain ⟨q, -, rfl⟩ := List.mem_map.mp (mem_pyDict hpr)
  rw [String.data_append, String.data_append] at hc
  rcases List.mem_append.mp hc with hc | hc
  · rcases List.mem_append.mp hc with hc | hc
    · exact prepare_toStr_clean q.1 c hc
    · have h : c = '=' := by simpa using hc
      subst h; decide
  · exact prepare_toStr_clean q.2 c hc

theorem python_round_nonneg {x : ℚ} (hx : 0 ≤ x) : 0 ≤ python_round x := by
  have hf : (0 : Int) ≤ ⌊x⌋ := Int.floor_nonneg.mpr hx
  simp only [python_round]
  split_ifs <;> omega

/-! ### C1 — the encoder output carries no reserved characters -/

/-- C1: for every metric name, value and tag mapping (components strings or
integers), the encoder output contains no `:`, `_` or `|` character at all —
so none outside the structural separators either — because every
string-typed component is escaped with `-`, while non-string values pass
through `prepare_str_for_telegraf` unescaped. -/
theorem encoder_output_no_reserved_chars (metric_name metric_value : PyVal)
    (tags : Option (List (PyVal × PyVal))) :
    (∀ c ∈ (format_measurement_influxline metric_name metric_value tags).data,
        c ≠ ':' ∧ c ≠ '_' ∧ c ≠ '|')
    ∧ ∀ n : Int, prepare_str_for_telegraf (.int n) = .int n := by
  refine ⟨?_, fun n => rfl⟩
  have hstatic : ∀ c ∈ (" value=" : String).data, c ≠ ':' ∧ c ≠ '_' ∧ c ≠ '|' := by
    decide
  have hnl : ∀ c ∈ ("\n" : String).data, c ≠ ':' ∧ c ≠ '_' ∧ c ≠ '|' := by decide
  have hcomma : ∀ c ∈ ("," : String).data, c ≠ ':' ∧ c ≠ '_' ∧ c ≠ '|' := by decide
  intro c hc
  match tags with
  | none =>
    simp only [format_measurement_influxline, String.data_append,
      List.mem_append] at hc
    rcases hc with (((hc | hc) | hc) | hc) | hc
    · exact prepare_toStr_clean metric_name c hc
    · exact absurd hc (List.not_mem_nil c)
    · exact hstatic c hc
    · exact prepare_toStr_clean metric_value c hc
    · exact hnl c hc
  | some [] =>
    simp only [format_measurement_influxline, String.data_append,
      List.mem_append] at hc
    rcases hc with (((hc | hc) | hc) | hc) | hc
    · exact prepare_toStr_clean metric_name c hc
    · exact absurd hc (List.not_mem_nil c)
    · exact hstatic c hc
    · exact prepare_toStr_clean metric_value c hc
    · exact hnl c hc
  | some (q :: qs) =>
    simp only [format_measurement_influxline, String.data_append,
      List.mem_append] at hc
    rcases hc with (((hc | (hc | hc)) | hc) | hc) | hc
    · exact prepare_toStr_clean metric_name c hc
    · exact hcomma c hc
    · rcases mem_pyJoin "," _ c hc with h | ⟨p, hp, hcp⟩
      · exact hcomma c h
      · exact tag_part_clean hp c hcp
    · exact hstatic c hc
    · exact prepare_toStr_clean metric_value c hc
    · exact hnl c hc

/-- Witness for C1 at the spec's second worked example. -/
theorem encoder_output_no_reserved_chars_witness :
    ('r' ∈ (format_measurement_influxline (.str "req:time") (.int 10)
        (some [(.str "host_name", .str "a|b")])).data)
    ∧ ('r' ≠ ':' ∧ 'r' ≠ '_' ∧ 'r' ≠ '|') :=
  ⟨by decide,
    (encoder_output_no_reserved_chars (.str "req:time") (.int 10)
      (some [(.str "host_name", .str "a|b")])).1 'r' (by decide)⟩

/-! ### C9 — escaping is idempotent -/

/-- C9: escaping is idempotent on every value — re-escaping an
already-escaped component is the identity — because the output of the
escaper on any string contains no `:`, `_` or `|` character. -/
theorem prepare_str_for_telegraf_idempotent :
    (∀ v : PyVal, prepare_str_for_telegraf (prepare_str_for_telegraf v)
      = prepare_str_for_telegraf v)
    ∧ ∀ s : String, ∀ c ∈ ((prepare_str_for_telegraf (.str s)).toStr).data,
        c ≠ ':' ∧ c ≠ '_' ∧ c ≠ '|' := by
  refine ⟨?_, fun s => prepare_str_clean s⟩
  intro v
  cases v with
  | int n => rfl
  | str s =>
    have hclean := prepare_str_clean s
    apply congrArg PyVal.str
    apply String.ext
    show (((prepare_str_for_telegraf (.str s)).toStr.data.map
        (fun c => if c = ':' then '-' else c)).map
        (fun c => if c = '_' then '-' else c)).map
        (fun c => if c = '|' then '-' else c)
      = (prepare_str_for_telegraf (.str s)).toStr.data
    rw [List.map_map, List.map_map]
    have hid : ∀ a ∈ (prepare_str_for_telegraf (.str s)).toStr.data,
        (((fun c => if c = '|' then '-' else c) ∘
          (fun c => if c = '_' then '-' else c)) ∘
          (fun c => if c = ':' then '-' else c)) a = id a := by
      intro a ha
      obtain ⟨h1, h2, h3⟩ := hclean a ha
      simp only [Function.comp_apply, if_neg h1, if_neg h2, if_neg h3, id]
    rw [List.map_congr_left hid, List.map_id]

/-- Witness for C9 at a concrete string holding every reserved character. -/
theorem prepare_str_for_telegraf_idempotent_witness :
    (prepare_str_for_telegraf (prepare_str_for_telegraf (.str "a:b_c|d"))
      = prepare_str_for_telegraf (.str "a:b_c|d"))
    ∧ ('a' ∈ ((prepare_str_for_telegraf (.str "a:b_c|d")).toStr).data
        ∧ 'a' ≠ ':' ∧ 'a' ≠ '_' ∧ 'a' ≠ '|') :=
  ⟨prepare_str_for_telegraf_idempotent.1 (.str "a:b_c|d"),
    by decide,
    prepare_str_for_telegraf_idempotent.2 "a:b_c|d" 'a' (by decide)⟩

/-! ### C5 — phase-end on a fresh context fails loudly -/

/-- C5: invoking a phase-end observer on a fresh `trace_config_ctx` in which
the matching phase-start observer never recorded a start timestamp raises
`AttributeError` (a lookup-style failure) instead of emitting a duration
metric — for each of the four paired phases. -/
theorem on_request_end_fresh_ctx_raises (now : ℚ) (params : TraceParams) :
    on_request_end now {} params = .error (.attributeError "request_start")
    ∧ on_connection_queued_end now {} params
      = .error (.attributeError "connection_queued_start")
    ∧ on_connection_create_end now {} params
      = .error (.attributeError "connection_create_start")
    ∧ on_dns_resolvehost_end now {} params
      = .error (.attributeError "dns_resolvehost_start") :=
  ⟨rfl, rfl, rfl, rfl⟩

/-! ### C6 — empty or absent tags omit the tag segment -/

/-- C6: when the tags mapping is `None` or the empty dict, the tag segment
(including its leading comma) is omitted: the encoder output is exactly
`<escaped-name> value=<escaped-value>\n`. -/
theorem format_empty_tags_omits_segment (name value : PyVal) :
    format_measurement_influxline name value none
      = (prepare_str_for_telegraf name).toStr ++ " value="
        ++ (prepare_str_for_telegraf value).toStr ++ "\n"
    ∧ format_measurement_influxline name value (some [])
      = (prepare_str_for_telegraf name).toStr ++ " value="
        ++ (prepare_str_for_telegraf value).toStr ++ "\n" := by
  constructor <;> simp [format_measurement_influxline]

/-! ### C7 — the spec's worked examples -/

/-- C7: the encoder reproduces the spec's two worked examples exactly. -/
theorem format_worked_examples :
    format_measurement_influxline (.str "cpu_load") (.int 42) (some [])
      = "cpu-load value=42\n"
    ∧ format_measurement_influxline (.str "req:time") (.int 10)
        (some [(.str "host_name", .str "a|b")])
      = "req-time,host-name=a-b value=10\n" :=
  ⟨by decide, by decide⟩

/-! ### C4 — transport failures are swallowed by send_stats -/

/-- C4: a `socket.error` from socket creation or `sendto` propagates out of
the `try` block, and `send_stats` catches it, logs it, and returns normally;
on success the success line is logged.  No transport failure ever reaches the
caller of `send_stats`. -/
theorem send_stats_swallows_transport_errors (n v : PyVal)
    (t : Option (List (PyVal × PyVal))) :
    (∀ e : SocketError, send_stats_try_block (.error e) n v t = .error e)
    ∧ (∀ e : SocketError, send_stats (.error e) n v t = .logged_error e)
    ∧ (∀ u : Unit, send_stats (.ok u) n v t
        = .reported (format_measurement_influxline n v t)) :=
  ⟨fun _ => rfl, fun _ => rfl, fun _ => rfl⟩

/-! ### C8 — durations depend only on the observer's own context -/

/-- C8: the metric emitted by the request-end observer is a function only of
the clock reading, the `params` bundle, and the `request_start` timestamp of
its own context: two contexts agreeing on `request_start` produce identical
results, whatever their other timer fields hold.  In particular, varying a
second in-flight request's context never changes this request's duration. -/
theorem on_request_end_depends_only_on_own_start (now : ℚ)
    (c1 c2 : TraceConfigCtx) (params : TraceParams)
    (h : c1.request_start = c2.request_start) :
    on_request_end now c1 params = on_request_end now c2 params := by
  unfold on_request_end
  rw [h]

/-- Witness for C8 at concrete contexts differing in every other field. -/
theorem on_request_end_depends_only_on_own_start_witness :
    (TraceConfigCtx.mk (some 1) (some 2) none none).request_start
      = (TraceConfigCtx.mk (some 1) none (some 3) (some 4)).request_start
    ∧ on_request_end 5 (TraceConfigCtx.mk (some 1) (some 2) none none) {}
      = on_request_end 5 (TraceConfigCtx.mk (some 1) none (some 3) (some 4)) {} :=
  ⟨rfl, on_request_end_depends_only_on_own_start 5
    (TraceConfigCtx.mk (some 1) (some 2) none none)
    (TraceConfigCtx.mk (some 1) none (some 3) (some 4)) {} rfl⟩

/-! ### C2 — paired start/end emits the rounded clock difference -/

/-- C2: for each paired start/end phase, running the start observer at time
`t1` and the end observer at time `t2` on the same context emits a duration
metric whose value is `round((t2 - t1) * 1000)` milliseconds, and that value
is nonnegative whenever the end observer runs no earlier than the start
observer. -/
theorem request_duration_eq_rounded_clock_difference (ctx : TraceConfigCtx)
    (params : TraceParams) (t1 t2 : ℚ) (h : t1 ≤ t2) :
    (∃ m : Metric,
      on_request_end t2 (on_request_start t1 ctx) params = .ok m
      ∧ m.value = .int (python_round ((t2 - t1) * 1000)))
    ∧ (∃ m : Metric,
      on_connection_queued_end t2 (on_connection_queued_start t1 ctx) params = .ok m
      ∧ m.value = .int (python_round ((t2 - t1) * 1000)))
    ∧ (∃ m : Metric,
      on_connection_create_end t2 (on_connection_create_start t1 ctx) params = .ok m
      ∧ m.value = .int (python_round ((t2 - t1) * 1000)))
    ∧ (∃ m : Metric,
      on_dns_resolvehost_end t2 (on_dns_resolvehost_start t1 ctx) params = .ok m
      ∧ m.value = .int (python_round ((t2 - t1) * 1000)))
    ∧ 0 ≤ python_round ((t2 - t1) * 1000) := by
  refine ⟨⟨_, rfl, rfl⟩, ⟨_, rfl, rfl⟩, ⟨_, rfl, rfl⟩, ⟨_, rfl, rfl⟩, ?_⟩
  have hx : (0 : ℚ) ≤ (t2 - t1) * 1000 :=
    mul_nonneg (sub_nonneg.mpr h) (by norm_num)
  exact python_round_nonneg hx

/-- Witness for C2 at `t1 = 0`, `t2 = 1` on a fresh context. -/
theorem request_duration_eq_rounded_clock_difference_witness :
    (0 : ℚ) ≤ 1
    ∧ ((∃ m : Metric,
        on_request_end 1 (on_request_start 0 {}) {} = .ok m
        ∧ m.value = .int (python_round (((1 : ℚ) - 0) * 1000)))
      ∧ (∃ m : Metric,
        on_connection_queued_end 1 (on_connection_queued_start 0 {}) {} = .ok m
        ∧ m.value = .int (python_round (((1 : ℚ) - 0) * 1000)))
      ∧ (∃ m : Metric,
        on_connection_create_end 1 (on_connection_create_start 0 {}) {} = .ok m
        ∧ m.value = .int (python_round (((1 : ℚ) - 0) * 1000)))
      ∧ (∃ m : Metric,
        on_dns_resolvehost_end 1 (on_dns_resolvehost_start 0 {}) {} = .ok m
        ∧ m.value = .int (python_round (((1 : ℚ) - 0) * 1000)))
      ∧ 0 ≤ python_round (((1 : ℚ) - 0) * 1000)) :=
  ⟨by norm_num,
    request_duration_eq_rounded_clock_difference {} {} 0 1 (by norm_num)⟩

/-! ### C3 — the profiling wrapper and failing units of work -/

/-- C3 counterexample: when the wrapped body raises, the `profiler` context
manager emits no metric at all (the generator has no `try/finally` around its
`yield`), refuting the claim that one duration metric is emitted for every
outcome and that failures are re-raised only after the metric is recorded. -/
theorem profiler_run_failure_emits_no_metric_cex :
    ¬ ((profiler_run 0 1 (.str "call_python_and_mozilla_using_aiohttp_exec_time") []
        (Except.error (PyErr.clientError "Cannot connect to host") :
          Except PyErr String)).2.length = 1) := by
  simp [profiler_run]

/-- C3 amended: the wrapper always hands back exactly the wrapped call's
outcome; on success it emits exactly one duration metric valued
`int(round((end - start) * 1000))` milliseconds with its tags; on failure the
exception is re-raised unchanged and no metric is emitted. -/
theorem profiler_run_outcome_and_metrics {α : Type} (s e : ℚ) (name : PyVal)
    (tags : List (PyVal × PyVal)) (body : Except PyErr α) (v : α) (er : PyErr) :
    (profiler_run s e name tags body).1 = body
    ∧ (profiler_run s e name tags (Except.ok v)).2
        = [⟨name, .int (python_round ((e - s) * 1000)), some tags⟩]
    ∧ (profiler_run s e name tags (Except.error er : Except PyErr α)).2 = [] := by
  refine ⟨?_, rfl, rfl⟩
  cases body <;> rfl

/-! ### C10 — a profile() decorator instance reuses the first derived name -/

theorem append_exec_time_ne_empty (f : String) : f ++ "_exec_time" ≠ "" := by
  intro h
  have hd := congrArg String.data h
  rw [String.data_append] at hd
  rcases List.append_eq_nil.mp hd with ⟨-, h2⟩
  exact absurd h2 (by decide)

/-- C10: applying the decorator returned by one `profile()` call (no explicit
`metric_name`) to `f` and then to `g` leaves the shared `nonlocal
metric_name` cell at `f.__name__ + '_exec_time'`, so `g`'s wrapper also emits
its duration metric under the first function's name; when the names differ,
the documented `<unit_name>_exec_time` naming fails for `g`. -/
theorem profile_decorator_reuses_first_name (f g : String) :
    actual_decorator_name (actual_decorator_name none f) g
      = some (f ++ "_exec_time")
    ∧ (f ≠ g →
        actual_decorator_name (actual_decorator_name none f) g
          ≠ some (g ++ "_exec_time"))
    ∧ ∀ (s e : ℚ) (v : Nat),
        (profiler_run s e (.str (f ++ "_exec_time")) []
          (Except.ok v)).2.map Metric.name = [.str (f ++ "_exec_time")] := by
  have h1 : actual_decorator_name (actual_decorator_name none f) g
      = some (f ++ "_exec_time") := by
    simp [actual_decorator_name, py_falsy, append_exec_time_ne_empty f]
  refine ⟨h1, ?_, fun s e v => rfl⟩
  intro hne
  rw [h1]
  intro hcontra
  apply hne
  have hd := congrArg String.data (Option.some.inj hcontra)
  rw [String.data_append, String.data_append] at hd
  exact String.ext (List.append_cancel_right hd)

/-- Witness for C10 at two concrete distinct function names. -/
theorem profile_decorator_reuses_first_name_witness :
    (actual_decorator_name (actual_decorator_name none "download") "upload"
      = some ("download" ++ "_exec_time")
    ∧ ("download" : String) ≠ "upload"
    ∧ actual_decorator_name (actual_decorator_name none "download") "upload"
      ≠ some ("upload" ++ "_exec_time"))
    ∧ (profiler_run 0 1 (.str ("download" ++ "_exec_time")) []
        (Except.ok (5 : Nat))).2.map Metric.name
      = [.str ("download" ++ "_exec_time")] :=
  ⟨⟨(profile_decorator_reuses_first_name "download" "upload").1, by decide,
    (profile_decorator_reuses_first_name "download" "upload").2.1 (by decide)⟩,
    (profile_decorator_reuses_first_name "download" "upload").2.2 0 1 5⟩

end NetworkCallsStats
